import Mathlib

/-!
Verification of the resource-request lifecycle and inventory-accounting core of
the CIE-v2 university operations application.

The embedded functions are translated from
`src/components/pages/student/lab-components-request.tsx` and
`src/app/api/faculty/route.ts`.  JavaScript timestamps (`Date.getTime()`) are
modelled as integer milliseconds since the epoch; JavaScript numeric arithmetic
on quantities and percentages is modelled exactly over `ℚ` (the float literal
`0.3` rounds below the rational `3/10` and the products/quotients involved never
round an integer comparison across a boundary for quantities in the exact-double
range, so the exact model agrees with the source on all realistic inputs).
-/

namespace CIE

/-- Milliseconds per day, the divisor `1000 * 60 * 60 * 24` used by
`getOverdueDays` in the source. -/
def msPerDay : Int := 1000 * 60 * 60 * 24

/-- From `isOverdue` (lab-components-request.tsx:26-28):
`new Date(expectedReturnDate) < new Date()`; both dates are modelled as epoch
milliseconds, with the current time `now` passed explicitly. -/
def isOverdue (expectedReturnDate now : Int) : Bool :=
  decide (expectedReturnDate < now)

/-- From `getOverdueDays` (lab-components-request.tsx:30-33):
`Math.ceil((now - expectedReturnDate) / (1000*60*60*24))`, with the current
time `now` passed explicitly. -/
def getOverdueDays (expectedReturnDate now : Int) : Int :=
  ⌈((now - expectedReturnDate : Int) : ℚ) / (msPerDay : ℚ)⌉

/-- From `getAvailabilityColor` (lab-components-request.tsx:359-364):
`percentage = (available / total) * 100`, red when `percentage === 0`, yellow
when `percentage < 30`, else green.  The division is modelled exactly over `ℚ`;
note `ℚ` division by zero yields `0`, so this model is only compared with the
source for `total ≥ 1` (the JavaScript `total = 0` path evaluates `NaN`
comparisons instead). -/
def getAvailabilityColor (available total : ℕ) : String :=
  let percentage : ℚ := ((available : ℚ) / (total : ℚ)) * 100
  if percentage = 0 then "bg-red-100 text-red-800"
  else if percentage < 30 then "bg-yellow-100 text-yellow-800"
  else "bg-green-100 text-green-800"

/-- From `getAvailabilityText` (lab-components-request.tsx:366-370):
`available === 0` gives "Out of Stock", `available < total * 0.3` gives
"Low Stock", else "Available". -/
def getAvailabilityText (available total : ℕ) : String :=
  if available = 0 then "Out of Stock"
  else if (available : ℚ) < (total : ℚ) * (3 / 10) then "Low Stock"
  else "Available"

example : getAvailabilityText 0 10 = "Out of Stock" := by norm_num [getAvailabilityText]
example : getAvailabilityText 2 10 = "Low Stock" := by norm_num [getAvailabilityText]
example : getAvailabilityText 8 10 = "Available" := by norm_num [getAvailabilityText]
example : getAvailabilityText 0 0 = "Out of Stock" := by norm_num [getAvailabilityText]
example : isOverdue 1704067200000 1704844800000 = true := by decide
example : getOverdueDays 1704067200000 1704844800000 = 9 := by
  norm_num [getOverdueDays, msPerDay]
example : getOverdueDays 172800000 0 = -2 := by
  norm_num [getOverdueDays, msPerDay]
  rw [show (-2 : ℚ) = ((-2 : ℤ) : ℚ) by norm_num, Int.ceil_intCast]

/-! ## Request lifecycle: data model

Records mirror the TypeScript interfaces in lab-components-request.tsx,
restricted to the fields the embedded logic reads. -/

structure Project where
  id : String
  status : String
deriving DecidableEq

structure LabComponent where
  id : String
  component_quantity : ℕ
  available_quantity : ℕ
deriving DecidableEq

structure User where
  id : String
deriving DecidableEq

/-- The `newRequest` form state (lab-components-request.tsx:84-89). -/
structure NewRequest where
  quantity : Int
  purpose : String
  required_date : String
  project_id : String
deriving DecidableEq

/-- From `isFormValid` (lab-components-request.tsx:98-105): quantity > 0,
trimmed purpose non-empty, required date and project id non-empty. -/
def isFormValid (newRequest : NewRequest) : Bool :=
  decide (0 < newRequest.quantity) &&
  (newRequest.purpose.trim != "") &&
  (newRequest.required_date != "") &&
  (newRequest.project_id != "")

/-- From `isProjectApproved` (lab-components-request.tsx:107-110):
`projects.find(p => p.id === projectId)` then `project.status === "ONGOING"`,
with a missing project collapsing to `false` (JS falsy). -/
def isProjectApproved (projects : List Project) (projectId : String) : Bool :=
  match projects.find? (fun p => p.id == projectId) with
  | none => false
  | some project => project.status == "ONGOING"

/-- From `canSubmitRequest` (lab-components-request.tsx:112-114). -/
def canSubmitRequest (newRequest : NewRequest) (projects : List Project) : Bool :=
  isFormValid newRequest && isProjectApproved projects newRequest.project_id

/-- The JSON body POSTed to `/api/component-requests`
(lab-components-request.tsx:247-254). -/
structure RequestBody where
  component_id : String
  project_id : String
  quantity : Int
  purpose : String
  required_date : String
  notes : String
deriving DecidableEq

/-- Outcome of one run of `handleRequestComponent`: either one of the four
early-return toast errors, or the POST that creates the request. -/
inductive SubmitOutcome where
  | errNotLoggedIn : SubmitOutcome
  | errMissingFields : SubmitOutcome
  | errProjectNotApproved : SubmitOutcome
  | errInsufficientStock : SubmitOutcome
  | posted : RequestBody → SubmitOutcome
deriving DecidableEq

/-- From `handleRequestComponent` (lab-components-request.tsx:203-286): the
guard chain in source order — no user; missing component/purpose/date/project
(JS falsy strings are exactly the empty string); project not approved; quantity
exceeding the selected component's available quantity — then the POST body. -/
def handleRequestComponent (user : Option User) (selectedComponent : Option LabComponent)
    (newRequest : NewRequest) (projects : List Project) : SubmitOutcome :=
  match user with
  | none => SubmitOutcome.errNotLoggedIn
  | some _ =>
    match selectedComponent with
    | none => SubmitOutcome.errMissingFields
    | some c =>
      if (newRequest.purpose == "") || (newRequest.required_date == "") ||
          (newRequest.project_id == "") then
        SubmitOutcome.errMissingFields
      else if !(isProjectApproved projects newRequest.project_id) then
        SubmitOutcome.errProjectNotApproved
      else if decide ((c.available_quantity : Int) < newRequest.quantity) then
        SubmitOutcome.errInsufficientStock
      else
        SubmitOutcome.posted
          { component_id := c.id
            project_id := newRequest.project_id
            quantity := newRequest.quantity
            purpose := newRequest.purpose
            required_date := newRequest.required_date
            notes := "" }

/-- A persisted component request row (interface `ComponentRequest`,
lab-components-request.tsx:57-71, restricted to the fields the logic reads). -/
structure PersistedRequest where
  id : String
  component_id : String
  quantity : Int
  purpose : String
  required_date : String
  status : String
  return_date : Option String
deriving DecidableEq

/-- Server-side inventory-plus-requests state. -/
structure ServerState where
  components : List LabComponent
  requests : List PersistedRequest
deriving DecidableEq

/-- Modelled from the spec: the `POST /api/component-requests` route is not
under src/ (only this caller is).  Per spec §4.2 `createRequest`, a successful
call reserves stock (`InventoryStore.reserve`) and persists the request with
status PENDING. -/
def serverCreate (newId : String) (body : RequestBody) (st : ServerState) : ServerState :=
  { components :=
      st.components.map fun c =>
        if c.id == body.component_id then
          { c with available_quantity := c.available_quantity - body.quantity.toNat }
        else c
    requests :=
      st.requests ++
        [{ id := newId
           component_id := body.component_id
           quantity := body.quantity
           purpose := body.purpose
           required_date := body.required_date
           status := "PENDING"
           return_date := none }] }

/-- Effect of a submission outcome on the server state: only a `posted`
outcome issues the request-creation call; every early return leaves the
server untouched. -/
def submitEffect (newId : String) (st : ServerState) : SubmitOutcome → ServerState
  | SubmitOutcome.posted body => serverCreate newId body st
  | _ => st

/-- The full UI submission path: the Submit button is rendered with
`disabled={!canSubmitRequest()}` (lab-components-request.tsx:663-666), so
`handleRequestComponent` only runs when `isFormValid` and `isProjectApproved`
both hold; otherwise the click is blocked and the tooltip shows the
corresponding validation message (lab-components-request.tsx:672-686). -/
inductive UiSubmit where
  | blockedInvalidForm : UiSubmit
  | blockedProjectNotApproved : UiSubmit
  | submitted : SubmitOutcome → UiSubmit
deriving DecidableEq

def submitRequest (user : Option User) (selectedComponent : Option LabComponent)
    (newRequest : NewRequest) (projects : List Project) : UiSubmit :=
  if isFormValid newRequest then
    if isProjectApproved projects newRequest.project_id then
      UiSubmit.submitted (handleRequestComponent user selectedComponent newRequest projects)
    else UiSubmit.blockedProjectNotApproved
  else UiSubmit.blockedInvalidForm

/-- Effect of the gated UI submission on the server state: a blocked click
submits nothing. -/
def uiSubmitEffect (newId : String) (st : ServerState) : UiSubmit → ServerState
  | UiSubmit.submitted o => submitEffect newId st o
  | _ => st

/-! ## Return flow -/

/-- The JSON body of the PATCH issued to `/api/component-requests/{id}`
(lab-components-request.tsx:297-300). -/
structure PatchBody where
  status : String
  return_date : Option String
deriving DecidableEq

/-- From `handleReturnComponent` (lab-components-request.tsx:288-320): the
student-side handler always PATCHes status "RETURNED" with
`return_date = new Date().toISOString()`; this is the body it sends. -/
def handleReturnComponent (now : String) : PatchBody :=
  { status := "RETURNED", return_date := some now }

/-- Modelled from the spec: the `PATCH /api/component-requests/{id}` route is
not under src/ (only this caller is).  Per spec §4.2 `confirmReturn` requires
current status COLLECTED; it then applies the PATCHed status and return date,
and fails with `InvalidTransition` otherwise. -/
def confirmReturnServer (req : PersistedRequest) (body : PatchBody) :
    Except String PersistedRequest :=
  if req.status = "COLLECTED" then
    Except.ok { req with status := body.status, return_date := body.return_date }
  else
    Except.error "InvalidTransition"

/-- The composed student-confirms-return operation: the client handler's PATCH
body applied by the server transition. -/
def confirmReturn (req : PersistedRequest) (now : String) :
    Except String PersistedRequest :=
  confirmReturnServer req (handleReturnComponent now)

/-! ## Faculty creation (src/app/api/faculty/route.ts, POST) -/

/-- The destructured JSON body of `POST /api/faculty` (faculty/route.ts:38-48);
`none` models an absent field. -/
structure FacultyBody where
  name : Option String
  email : Option String
  password : Option String
  phone : Option String
  department : Option String
  office : Option String
  specialization : Option String
  facultyId : Option String
  officeHours : Option String
deriving DecidableEq

/-- JavaScript falsiness of a string-or-undefined field: absent or empty. -/
def falsy : Option String → Bool
  | none => true
  | some s => s == ""

/-- The string value of a present field (used only after the falsiness guard). -/
def orEmpty : Option String → String
  | none => ""
  | some s => s

/-- A `user` table row (faculty/route.ts:79-87). -/
structure UserRow where
  id : ℕ
  name : String
  email : String
  password : String
  phone : Option String
  role : String
deriving DecidableEq

/-- A `faculty` table row (faculty/route.ts:90-102). -/
structure FacultyRow where
  id : ℕ
  user_id : ℕ
  department : String
  office : String
  specialization : String
  faculty_id : String
  office_hours : String
deriving DecidableEq

/-- The two tables `POST /api/faculty` touches, with a fresh-id counter
standing for the database's id assignment. -/
structure Db where
  users : List UserRow
  faculty : List FacultyRow
  nextId : ℕ
deriving DecidableEq

/-- From `POST` (faculty/route.ts:35-120): reject (HTTP 400) when a required
field is falsy, when the email already has a user row, or when the faculty id
already has a faculty row; otherwise create the user row and the faculty row
referencing it inside one `prisma.$transaction`, and answer 201.  `bcrypt.hash`
is modelled by the abstract `hash` argument; `phone || null` collapses a falsy
phone to `none`. -/
def facultyPOST (hash : String → String) (body : FacultyBody) (db : Db) : ℕ × Db :=
  if falsy body.name || falsy body.email || falsy body.password ||
      falsy body.department || falsy body.office || falsy body.specialization ||
      falsy body.facultyId || falsy body.officeHours then
    (400, db)
  else if db.users.any (fun u => u.email == orEmpty body.email) then
    (400, db)
  else if db.faculty.any (fun f => f.faculty_id == orEmpty body.facultyId) then
    (400, db)
  else
    let user : UserRow :=
      { id := db.nextId
        name := orEmpty body.name
        email := orEmpty body.email
        password := hash (orEmpty body.password)
        phone := if falsy body.phone then none else body.phone
        role := "FACULTY" }
    let fac : FacultyRow :=
      { id := db.nextId + 1
        user_id := user.id
        department := orEmpty body.department
        office := orEmpty body.office
        specialization := orEmpty body.specialization
        faculty_id := orEmpty body.facultyId
        office_hours := orEmpty body.officeHours }
    (201, { users := db.users ++ [user], faculty := db.faculty ++ [fac],
            nextId := db.nextId + 2 })

/-! ## Helper lemmas: availability classifiers -/

theorem text_out_iff (a t : ℕ) :
    getAvailabilityText a t = "Out of Stock" ↔ a = 0 := by
  unfold getAvailabilityText
  split_ifs with h1 h2
  · simp [h1]
  · exact iff_of_false (by decide) h1
  · exact iff_of_false (by decide) h1

theorem text_low_iff (a t : ℕ) :
    getAvailabilityText a t = "Low Stock" ↔
      a ≠ 0 ∧ (a : ℚ) < (t : ℚ) * (3 / 10) := by
  unfold getAvailabilityText
  split_ifs with h1 h2
  · exact iff_of_false (by decide) (fun h => h.1 h1)
  · exact iff_of_true rfl ⟨h1, h2⟩
  · exact iff_of_false (by decide) (fun h => h2 h.2)

theorem text_avail_iff (a t : ℕ) :
    getAvailabilityText a t = "Available" ↔
      a ≠ 0 ∧ ¬ ((a : ℚ) < (t : ℚ) * (3 / 10)) := by
  unfold getAvailabilityText
  split_ifs with h1 h2
  · exact iff_of_false (by decide) (fun h => h.1 h1)
  · exact iff_of_false (by decide) (fun h => h.2 h2)
  · exact iff_of_true rfl ⟨h1, h2⟩

theorem percentage_eq_zero_iff (a t : ℕ) (ht : 1 ≤ t) :
    ((a : ℚ) / (t : ℚ)) * 100 = 0 ↔ a = 0 := by
  have ht0 : (0 : ℚ) < (t : ℚ) := by exact_mod_cast ht
  rw [mul_eq_zero, div_eq_zero_iff]
  simp [ht0.ne', Nat.cast_eq_zero]

theorem percentage_lt_30_iff (a t : ℕ) (ht : 1 ≤ t) :
    ((a : ℚ) / (t : ℚ)) * 100 < 30 ↔ (a : ℚ) < (t : ℚ) * (3 / 10) := by
  have ht0 : (0 : ℚ) < (t : ℚ) := by exact_mod_cast ht
  rw [div_mul_eq_mul_div, div_lt_iff₀ ht0]
  constructor <;> intro h <;> linarith

theorem color_red_iff (a t : ℕ) (ht : 1 ≤ t) :
    getAvailabilityColor a t = "bg-red-100 text-red-800" ↔ a = 0 := by
  unfold getAvailabilityColor
  dsimp only
  split_ifs with h1 h2
  · exact iff_of_true rfl ((percentage_eq_zero_iff a t ht).mp h1)
  · exact iff_of_false (by decide) (fun h => h1 ((percentage_eq_zero_iff a t ht).mpr h))
  · exact iff_of_false (by decide) (fun h => h1 ((percentage_eq_zero_iff a t ht).mpr h))

theorem color_yellow_iff (a t : ℕ) (ht : 1 ≤ t) :
    getAvailabilityColor a t = "bg-yellow-100 text-yellow-800" ↔
      a ≠ 0 ∧ (a : ℚ) < (t : ℚ) * (3 / 10) := by
  unfold getAvailabilityColor
  dsimp only
  split_ifs with h1 h2
  · exact iff_of_false (by decide)
      (fun h => h.1 ((percentage_eq_zero_iff a t ht).mp h1))
  · exact iff_of_true rfl
      ⟨fun ha => h1 ((percentage_eq_zero_iff a t ht).mpr ha),
       (percentage_lt_30_iff a t ht).mp h2⟩
  · exact iff_of_false (by decide)
      (fun h => h2 ((percentage_lt_30_iff a t ht).mpr h.2))

theorem color_green_iff (a t : ℕ) (ht : 1 ≤ t) :
    getAvailabilityColor a t = "bg-green-100 text-green-800" ↔
      a ≠ 0 ∧ ¬ ((a : ℚ) < (t : ℚ) * (3 / 10)) := by
  unfold getAvailabilityColor
  dsimp only
  split_ifs with h1 h2
  · exact iff_of_false (by decide)
      (fun h => h.1 ((percentage_eq_zero_iff a t ht).mp h1))
  · exact iff_of_false (by decide)
      (fun h => h.2 ((percentage_lt_30_iff a t ht).mp h2))
  · exact iff_of_true rfl
      ⟨fun ha => h1 ((percentage_eq_zero_iff a t ht).mpr ha),
       fun hlt => h2 ((percentage_lt_30_iff a t ht).mpr hlt)⟩

/-! ## Claim theorems -/

/-- C1: `availabilityTier` (embedded as `getAvailabilityText`) yields
OUT_OF_STOCK ("Out of Stock") iff `available = 0`, LOW_STOCK ("Low Stock") iff
`0 < available < 0.3 * total`, and AVAILABLE ("Available") otherwise; for
`total = 0` (with the inventory invariant `available ≤ total`) it yields
OUT_OF_STOCK, and the embedded function performs no division at all. -/
theorem c1_availability_tier (a t : ℕ) :
    (getAvailabilityText a t = "Out of Stock" ↔ a = 0) ∧
    (getAvailabilityText a t = "Low Stock" ↔
      0 < a ∧ (a : ℚ) < 3 / 10 * (t : ℚ)) ∧
    (getAvailabilityText a t = "Available" ↔
      ¬ a = 0 ∧ ¬ ((a : ℚ) < 3 / 10 * (t : ℚ))) ∧
    (a ≤ t → t = 0 → getAvailabilityText a t = "Out of Stock") := by
  refine ⟨text_out_iff a t, ?_, ?_, ?_⟩
  · constructor
    · intro h
      rcases (text_low_iff a t).mp h with ⟨h1, h2⟩
      exact ⟨Nat.pos_of_ne_zero h1, by rwa [mul_comm] at h2⟩
    · rintro ⟨h1, h2⟩
      exact (text_low_iff a t).mpr
        ⟨Nat.pos_iff_ne_zero.mp h1, by rwa [mul_comm] at h2⟩
  · constructor
    · intro h
      rcases (text_avail_iff a t).mp h with ⟨h1, h2⟩
      exact ⟨h1, by rwa [mul_comm] at h2⟩
    · rintro ⟨h1, h2⟩
      exact (text_avail_iff a t).mpr ⟨h1, by rwa [mul_comm] at h2⟩
  · intro hle ht0
    have ha : a = 0 := by omega
    exact (text_out_iff a t).mpr ha

/-- Witness for C1 at the spec's edge case `availabilityTier(0, 0)`. -/
theorem c1_availability_tier_witness :
    (0 : ℕ) ≤ 0 ∧ getAvailabilityText 0 0 = "Out of Stock" :=
  ⟨by decide, (c1_availability_tier 0 0).2.2.2 (by decide) rfl⟩

/-- C5 counterexample: the claim asserts `getOverdueDays` is non-negative for
every pair of dates, but when the expected return date lies two days after
`now` (expected = 172800000 ms, now = 0 ms) the function returns a negative
number. -/
theorem c5_counterexample_negative : getOverdueDays 172800000 0 < 0 := by
  have h : getOverdueDays 172800000 0 = -2 := by
    norm_num [getOverdueDays, msPerDay]
    rw [show (-2 : ℚ) = ((-2 : ℤ) : ℚ) by norm_num, Int.ceil_intCast]
  rw [h]
  norm_num

/-- C5 (amended): `getOverdueDays` returns
`ceil((now - expectedReturnDate) / 1 day)`; the result is non-negative whenever
`expectedReturnDate ≤ now` (in particular whenever the request is overdue), and
for requiredDate 2024-01-01 (1704067200000 ms) and now 2024-01-10
(1704844800000 ms) it returns 9. -/
theorem c5_overdue_days (expectedReturnDate now : Int) :
    getOverdueDays expectedReturnDate now =
      ⌈((now : ℚ) - (expectedReturnDate : ℚ)) / 86400000⌉ ∧
    (expectedReturnDate ≤ now → 0 ≤ getOverdueDays expectedReturnDate now) ∧
    getOverdueDays 1704067200000 1704844800000 = 9 := by
  refine ⟨?_, ?_, ?_⟩
  · unfold getOverdueDays msPerDay
    push_cast
    norm_num
  · intro h
    unfold getOverdueDays
    apply Int.ceil_nonneg
    apply div_nonneg
    · exact_mod_cast sub_nonneg.mpr h
    · norm_num [msPerDay]
  · norm_num [getOverdueDays, msPerDay]

/-- Witness for C5 (amended), at expected return one day before now. -/
theorem c5_overdue_days_witness :
    (0 : Int) ≤ 86400000 ∧ 0 ≤ getOverdueDays 0 86400000 :=
  ⟨by decide, (c5_overdue_days 0 86400000).2.1 (by decide)⟩

/-- C6: `isOverdue` returns `true` iff the expected return date is strictly
earlier than `now`, and in particular returns `false` when the two dates are
equal. -/
theorem c6_is_overdue (expectedReturnDate now : Int) :
    (isOverdue expectedReturnDate now = true ↔ expectedReturnDate < now) ∧
    isOverdue now now = false := by
  simp [isOverdue]

/-- C9: evaluated at the same current time, `isOverdue` holds exactly when
`getOverdueDays` counts at least one overdue day: the boolean classifier and
the day counter are mutually consistent. -/
theorem c9_overdue_consistency (expectedReturnDate now : Int) :
    isOverdue expectedReturnDate now = true ↔
      1 ≤ getOverdueDays expectedReturnDate now := by
  have hpos : (0 : ℚ) < (msPerDay : ℚ) := by norm_num [msPerDay]
  rw [isOverdue, decide_eq_true_eq]
  unfold getOverdueDays
  constructor
  · intro h
    have h2 : (0 : ℚ) < ((now - expectedReturnDate : Int) : ℚ) / (msPerDay : ℚ) :=
      div_pos (by exact_mod_cast sub_pos.mpr h) hpos
    have h3 := Int.ceil_pos.mpr h2
    omega
  · intro h
    have h3 : (0 : ℚ) < ((now - expectedReturnDate : Int) : ℚ) / (msPerDay : ℚ) :=
      Int.ceil_pos.mp (by omega)
    rcases div_pos_iff.mp h3 with ⟨h4, _⟩ | ⟨_, h5⟩
    · have : (0 : Int) < now - expectedReturnDate := by exact_mod_cast h4
      omega
    · exact absurd hpos (not_lt.mpr h5.le)

/-- C10: for `total ≥ 1` the badge-color classifier and the badge-text
classifier induce the same three-way availability tier: red exactly when the
text is "Out of Stock", yellow exactly when "Low Stock", green exactly when
"Available". -/
theorem c10_badge_classifiers_agree (a t : ℕ) (ht : 1 ≤ t) :
    (getAvailabilityColor a t = "bg-red-100 text-red-800" ↔
      getAvailabilityText a t = "Out of Stock") ∧
    (getAvailabilityColor a t = "bg-yellow-100 text-yellow-800" ↔
      getAvailabilityText a t = "Low Stock") ∧
    (getAvailabilityColor a t = "bg-green-100 text-green-800" ↔
      getAvailabilityText a t = "Available") :=
  ⟨(color_red_iff a t ht).trans (text_out_iff a t).symm,
   (color_yellow_iff a t ht).trans (text_low_iff a t).symm,
   (color_green_iff a t ht).trans (text_avail_iff a t).symm⟩

/-- Witness for C10 at `(available, total) = (2, 10)`. -/
theorem c10_badge_classifiers_agree_witness :
    (1 : ℕ) ≤ 10 ∧
    (getAvailabilityColor 2 10 = "bg-yellow-100 text-yellow-800" ↔
      getAvailabilityText 2 10 = "Low Stock") :=
  ⟨by decide, (c10_badge_classifiers_agree 2 10 (by decide)).2.1⟩

/-- C2: whenever the requested quantity exceeds the selected component's
available quantity, `handleRequestComponent` never reaches the POST (no
request-creation call is issued), the server state — available quantities and
persisted requests — is left unchanged, and when the earlier guards (logged-in
user, filled fields, approved project) pass, the reported error is exactly the
insufficient-stock one. -/
theorem c2_insufficient_stock (user : Option User) (c : LabComponent)
    (newRequest : NewRequest) (projects : List Project) (newId : String)
    (st : ServerState)
    (hq : (c.available_quantity : Int) < newRequest.quantity) :
    (∀ body, handleRequestComponent user (some c) newRequest projects ≠
        SubmitOutcome.posted body) ∧
    submitEffect newId st (handleRequestComponent user (some c) newRequest projects) = st ∧
    (∀ u, user = some u → newRequest.purpose ≠ "" → newRequest.required_date ≠ "" →
      newRequest.project_id ≠ "" →
      isProjectApproved projects newRequest.project_id = true →
      handleRequestComponent user (some c) newRequest projects =
        SubmitOutcome.errInsufficientStock) := by
  cases user with
  | none =>
    exact ⟨fun body h => SubmitOutcome.noConfusion h, rfl,
      fun u hu => Option.noConfusion hu⟩
  | some u =>
    simp only [handleRequestComponent]
    split_ifs with h1 h2 h3
    · refine ⟨fun body h => SubmitOutcome.noConfusion h, rfl, ?_⟩
      intro u hu hp hd hpid happ
      simp only [Bool.or_eq_true, beq_iff_eq] at h1
      rcases h1 with (h | h) | h
      · exact absurd h hp
      · exact absurd h hd
      · exact absurd h hpid
    · refine ⟨fun body h => SubmitOutcome.noConfusion h, rfl, ?_⟩
      intro u hu hp hd hpid happ
      rw [happ] at h2
      simp at h2
    · exact ⟨fun body h => SubmitOutcome.noConfusion h, rfl,
        fun _ _ _ _ _ _ => rfl⟩
    · rw [decide_eq_true_eq] at h3
      exact absurd hq h3

/-- Witness for C2: requesting 2 units of a component with 1 available, for an
ONGOING project, yields exactly the insufficient-stock error. -/
theorem c2_insufficient_stock_witness :
    ((1 : ℕ) : Int) < 2 ∧
    handleRequestComponent (some ⟨"u1"⟩) (some ⟨"comp1", 5, 1⟩)
      ⟨2, "measure", "2024-05-01", "p1"⟩ [⟨"p1", "ONGOING"⟩] =
      SubmitOutcome.errInsufficientStock :=
  ⟨by decide,
   (c2_insufficient_stock (some ⟨"u1"⟩) ⟨"comp1", 5, 1⟩
      ⟨2, "measure", "2024-05-01", "p1"⟩ [⟨"p1", "ONGOING"⟩] "r1" ⟨[], []⟩
      (by decide)).2.2 ⟨"u1"⟩ rfl (by decide) (by decide) (by decide) (by decide)⟩

/-- C3: the project gate `isProjectApproved` answers `true` exactly when the
referenced project's status is ONGOING; and whenever that status is not
ONGOING, `handleRequestComponent` never reaches the POST, leaves the server
state unchanged, and — once the earlier guards (logged-in user, selected
component, filled fields) pass — reports exactly the project-not-approved
error. -/
theorem c3_project_gate (projects : List Project) (p : Project)
    (user : Option User) (selectedComponent : Option LabComponent)
    (newRequest : NewRequest) (newId : String) (st : ServerState)
    (hfind : projects.find? (fun q => q.id == newRequest.project_id) = some p) :
    (isProjectApproved projects newRequest.project_id = true ↔
      p.status = "ONGOING") ∧
    (p.status ≠ "ONGOING" →
      (∀ body, handleRequestComponent user selectedComponent newRequest projects ≠
          SubmitOutcome.posted body) ∧
      submitEffect newId st
          (handleRequestComponent user selectedComponent newRequest projects) = st ∧
      (user.isSome = true → selectedComponent.isSome = true →
        newRequest.purpose ≠ "" → newRequest.required_date ≠ "" →
        newRequest.project_id ≠ "" →
        handleRequestComponent user selectedComponent newRequest projects =
          SubmitOutcome.errProjectNotApproved)) := by
  have happ : isProjectApproved projects newRequest.project_id = true ↔
      p.status = "ONGOING" := by
    unfold isProjectApproved
    rw [hfind]
    simp [beq_iff_eq]
  refine ⟨happ, fun hstat => ?_⟩
  have hfalse : isProjectApproved projects newRequest.project_id = false := by
    cases h : isProjectApproved projects newRequest.project_id
    · rfl
    · exact absurd (happ.mp h) hstat
  cases user with
  | none =>
    exact ⟨fun body h => SubmitOutcome.noConfusion h, rfl, fun hu => by simp at hu⟩
  | some u =>
    cases selectedComponent with
    | none =>
      exact ⟨fun body h => SubmitOutcome.noConfusion h, rfl, fun _ hc => by simp at hc⟩
    | some c =>
      simp only [handleRequestComponent]
      split_ifs with h1 h2
      · refine ⟨fun body h => SubmitOutcome.noConfusion h, rfl, ?_⟩
        intro hu hc hp hd hpid
        simp only [Bool.or_eq_true, beq_iff_eq] at h1
        rcases h1 with (h | h) | h
        · exact absurd h hp
        · exact absurd h hd
        · exact absurd h hpid
      · exact ⟨fun body h => SubmitOutcome.noConfusion h, rfl,
          fun _ _ _ _ _ => rfl⟩
      all_goals simp [hfalse] at h2

/-- Witness for C3: a request for a project that is still PENDING yields the
project-not-approved error. -/
theorem c3_project_gate_witness :
    ("PENDING" : String) ≠ "ONGOING" ∧
    handleRequestComponent (some ⟨"u1"⟩) (some ⟨"comp1", 5, 5⟩)
      ⟨1, "measure", "2024-05-01", "p1"⟩ [⟨"p1", "PENDING"⟩] =
      SubmitOutcome.errProjectNotApproved :=
  ⟨by decide,
   ((c3_project_gate [⟨"p1", "PENDING"⟩] ⟨"p1", "PENDING"⟩ (some ⟨"u1"⟩)
      (some ⟨"comp1", 5, 5⟩) ⟨1, "measure", "2024-05-01", "p1"⟩ "r1" ⟨[], []⟩
      (by decide)).2 (by decide)).2.2 (by decide) (by decide) (by decide)
      (by decide) (by decide)⟩

/-- C4: the form validator accepts exactly the inputs with positive quantity,
non-blank purpose, and non-empty required date and project id; and whenever the
quantity is non-positive, the purpose blank, or the required date missing, the
gated submission path blocks with the invalid-form validation outcome and
submits nothing (the server state is untouched). -/
theorem c4_create_request_validation (user : Option User)
    (selectedComponent : Option LabComponent) (newRequest : NewRequest)
    (projects : List Project) (newId : String) (st : ServerState) :
    (isFormValid newRequest = true ↔
      0 < newRequest.quantity ∧ newRequest.purpose.trim ≠ "" ∧
      newRequest.required_date ≠ "" ∧ newRequest.project_id ≠ "") ∧
    ((newRequest.quantity ≤ 0 ∨ newRequest.purpose.trim = "" ∨
        newRequest.required_date = "") →
      submitRequest user selectedComponent newRequest projects =
        UiSubmit.blockedInvalidForm ∧
      uiSubmitEffect newId st
        (submitRequest user selectedComponent newRequest projects) = st) := by
  have hiff : isFormValid newRequest = true ↔
      0 < newRequest.quantity ∧ newRequest.purpose.trim ≠ "" ∧
      newRequest.required_date ≠ "" ∧ newRequest.project_id ≠ "" := by
    simp [isFormValid, and_assoc]
  refine ⟨hiff, fun h => ?_⟩
  have hform : ¬ (isFormValid newRequest = true) := by
    intro hv
    rcases hiff.mp hv with ⟨hqv, hp, hd, hpid⟩
    rcases h with h | h | h
    · omega
    · exact hp h
    · exact hd h
  unfold submitRequest
  rw [if_neg hform]
  exact ⟨rfl, rfl⟩

/-- Witness for C4 at quantity 0: the submission is blocked as invalid. -/
theorem c4_create_request_validation_witness :
    ((0 : Int) ≤ 0 ∨ ("measure" : String).trim = "" ∨
      ("2024-05-01" : String) = "") ∧
    submitRequest (some ⟨"u1"⟩) (some ⟨"comp1", 5, 5⟩)
      ⟨0, "measure", "2024-05-01", "p1"⟩ [⟨"p1", "ONGOING"⟩] =
      UiSubmit.blockedInvalidForm :=
  ⟨Or.inl (by decide),
   ((c4_create_request_validation (some ⟨"u1"⟩) (some ⟨"comp1", 5, 5⟩)
      ⟨0, "measure", "2024-05-01", "p1"⟩ [⟨"p1", "ONGOING"⟩] "r1" ⟨[], []⟩).2
      (Or.inl (by decide))).1⟩

/-- C7: for a request currently in COLLECTED status, the student
confirm-return flow sets exactly the status field to the single string
"RETURNED" and the return date to the current time; for any other current
status it fails with InvalidTransition; and the client handler only ever sends
the one status value "RETURNED", so no distinct verification status is
persisted. -/
theorem c7_confirm_return (req : PersistedRequest) (now : String) :
    (req.status = "COLLECTED" →
      confirmReturn req now =
        Except.ok { req with status := "RETURNED", return_date := some now }) ∧
    (req.status ≠ "COLLECTED" →
      confirmReturn req now = Except.error "InvalidTransition") ∧
    (handleReturnComponent now).status = "RETURNED" := by
  refine ⟨fun h => ?_, fun h => ?_, rfl⟩
  · simp [confirmReturn, confirmReturnServer, handleReturnComponent, h]
  · simp [confirmReturn, confirmReturnServer, handleReturnComponent, h]

/-- Witness for C7 on a concrete COLLECTED request. -/
theorem c7_confirm_return_witness :
    (("COLLECTED" : String) = "COLLECTED") ∧
    confirmReturn ⟨"r1", "comp1", 1, "lab", "2024-01-01", "COLLECTED", none⟩
        "2024-01-05" =
      Except.ok ⟨"r1", "comp1", 1, "lab", "2024-01-01", "RETURNED",
        some "2024-01-05"⟩ :=
  ⟨rfl,
   (c7_confirm_return ⟨"r1", "comp1", 1, "lab", "2024-01-01", "COLLECTED", none⟩
      "2024-01-05").1 rfl⟩

/-- C8: `POST /api/faculty` answers 400 and persists neither row whenever a
required field is missing, the email already exists, or the faculty id already
exists; in every outcome the database either is unchanged or gains exactly one
user row and one faculty row referencing it (the rows exist together or not at
all, matching the single transaction in the source). -/
theorem c8_faculty_creation (hash : String → String) (body : FacultyBody) (db : Db) :
    ((facultyPOST hash body db).1 = 400 → (facultyPOST hash body db).2 = db) ∧
    (((falsy body.name || falsy body.email || falsy body.password ||
        falsy body.department || falsy body.office || falsy body.specialization ||
        falsy body.facultyId || falsy body.officeHours) = true ∨
      db.users.any (fun u => u.email == orEmpty body.email) = true ∨
      db.faculty.any (fun f => f.faculty_id == orEmpty body.facultyId) = true) →
      (facultyPOST hash body db).1 = 400 ∧ (facultyPOST hash body db).2 = db) ∧
    ((facultyPOST hash body db).2 = db ∨
      ∃ u f, (facultyPOST hash body db).2.users = db.users ++ [u] ∧
        (facultyPOST hash body db).2.faculty = db.faculty ++ [f] ∧
        f.user_id = u.id ∧ u.role = "FACULTY") := by
  unfold facultyPOST
  split_ifs with h1 h2 h3 h4
  · exact ⟨fun _ => rfl, fun _ => ⟨rfl, rfl⟩, Or.inl rfl⟩
  · exact ⟨fun _ => rfl, fun _ => ⟨rfl, rfl⟩, Or.inl rfl⟩
  · exact ⟨fun _ => rfl, fun _ => ⟨rfl, rfl⟩, Or.inl rfl⟩
  · refine ⟨fun hc => ?_, fun hor => ?_, Or.inr ⟨_, _, rfl, rfl, rfl, rfl⟩⟩
    · simp at hc
    · rcases hor with h | h | h
      · exact absurd h h1
      · exact absurd h h2
      · exact absurd h h3
  · refine ⟨fun hc => ?_, fun hor => ?_, Or.inr ⟨_, _, rfl, rfl, rfl, rfl⟩⟩
    · simp at hc
    · rcases hor with h | h | h
      · exact absurd h h1
      · exact absurd h h2
      · exact absurd h h3

/-- Witness for C8: a body with a missing name is rejected with 400 and the
empty database is unchanged. -/
theorem c8_faculty_creation_witness :
    (falsy (none : Option String) || falsy (some "a@b.c") || falsy (some "pw") ||
      falsy (some "CS") || falsy (some "O1") || falsy (some "VLSI") ||
      falsy (some "F1") || falsy (some "9-5")) = true ∧
    (facultyPOST (fun s => s)
      ⟨none, some "a@b.c", some "pw", none, some "CS", some "O1", some "VLSI",
        some "F1", some "9-5"⟩ ⟨[], [], 0⟩).1 = 400 ∧
    (facultyPOST (fun s => s)
      ⟨none, some "a@b.c", some "pw", none, some "CS", some "O1", some "VLSI",
        some "F1", some "9-5"⟩ ⟨[], [], 0⟩).2 = ⟨[], [], 0⟩ :=
  ⟨by decide,
   (c8_faculty_creation (fun s => s)
      ⟨none, some "a@b.c", some "pw", none, some "CS", some "O1", some "VLSI",
        some "F1", some "9-5"⟩ ⟨[], [], 0⟩).2.1 (Or.inl (by decide))⟩

end CIE
